import Mathlib

/-!
Shallow embedding of `src/scraper/webscraper.py` (class `Webscraper`).

The Python class wraps a `requests.Session` and BeautifulSoup.  Its
observable state consists of the attributes `_url`, `_res`, `_data` and the
dictionary `_http_request` of per-verb booleans.  The HTTP transport is
modelled as an oracle (`Session` below): for each verb, a function from the
URL to either a `Response` or a raised `RequestException`, matching exactly
what `requests.Session.get`/`put`/... can do from the wrapper's point of
view.  Logging (`REQUESTS_LOG`), the progress bar (`tqdm`, an identity
wrapper around iteration) and the thread pool (`executor.map`, which
returns results in input order) have no effect on the stored state beyond
what is modelled.
-/

namespace Webscraper

/-- Model of `requests.Response` as seen by the wrapper: the wrapper reads
`res.ok` (status-based success flag), `res.content` and `res.encoding`. -/
structure Response where
  ok : Bool
  content : String
  encoding : String
deriving DecidableEq, Repr

/-- Model of `requests.exceptions.RequestException` (a transport-level
error), identified by its message. -/
structure RequestException where
  msg : String
deriving DecidableEq, Repr

/-- Model of a `BeautifulSoup` document: `BeautifulSoup(content, features,
from_encoding=...)` is treated as an opaque constructor recording its
arguments. -/
structure SoupDoc where
  content : String
  features : String
  fromEncoding : String
deriving DecidableEq, Repr

/-- The dynamic type of the argument passed to `get`: a Python `str`, a
Python `list` of `str`, or a value of any other type (identified by its
type name, as used in the error message). -/
inductive UrlArg where
  | str (s : String)
  | strList (l : List String)
  | invalid (typeName : String)
deriving DecidableEq, Repr

/-- The `_res` attribute: `None` initially, then a single response, a list
of responses (batch GET), or a stored `RequestException`. -/
inductive ResVal where
  | noneV
  | respV (r : Response)
  | listV (rs : List Response)
  | exnV (e : RequestException)
deriving DecidableEq, Repr

/-- The `_data` attribute: `None` initially, then a single parsed document
or a list of parsed documents. -/
inductive DataVal where
  | noneD
  | soupD (s : SoupDoc)
  | listD (ss : List SoupDoc)
deriving DecidableEq, Repr

/-- Python exceptions the wrapper can raise: the `AssertionError`s raised
explicitly by `get`/`parse`, the `AttributeError` raised when
`_parse_response` accesses `.content` on a non-`Response` value, and a
`RequestException` propagating uncaught out of a non-GET verb. -/
inductive PyError where
  | assertionError (msg : String)
  | attributeError (msg : String)
  | requestException (e : RequestException)
deriving DecidableEq, Repr

/-- The `_http_request` dictionary of booleans.  The initial dictionary in
`__init__` has keys DELETE, GET, PATCH, POST, PUT, OPTIONS; `head()` adds
the key HEAD on first use.  Since no code reads HEAD before `head()` sets
it, the missing key is modelled as the field being `false` initially. -/
structure HttpRequest where
  DELETE : Bool
  GET : Bool
  PATCH : Bool
  POST : Bool
  PUT : Bool
  OPTIONS : Bool
  HEAD : Bool
deriving DecidableEq, Repr

/-- The observable state of a `Webscraper` instance. -/
structure ScraperState where
  url : Option UrlArg
  res : ResVal
  data : DataVal
  http : HttpRequest
deriving DecidableEq, Repr

/-- State after `__init__`: `_res = None`, `_data = None`, all flags in
`_http_request` false, and `_url` not yet assigned (it is first assigned
inside the request methods). -/
def initState : ScraperState :=
  { url := none
    res := .noneV
    data := .noneD
    http := { DELETE := false, GET := false, PATCH := false, POST := false
              PUT := false, OPTIONS := false, HEAD := false } }

/-- One verb of the transport oracle: what `sess.<verb>(url)` does for each
URL — return a response, or raise a transport-level error. -/
def SessFun : Type := String → Except RequestException Response

/-- The transport oracle for the whole session, one function per verb used
by the wrapper.  `post` also receives the payload dictionary. -/
structure Session where
  get : SessFun
  put : SessFun
  delete : SessFun
  head : SessFun
  options : SessFun
  post : String → List (String × String) → Except RequestException Response
  patch : SessFun

/-- Result type of `Webscraper._load_url`: `Union[requests.Response,
requests.exceptions.RequestException]`. -/
inductive LoadResult where
  | response (r : Response)
  | exception (e : RequestException)
deriving DecidableEq, Repr

/-- `Webscraper._load_url`: perform `sess.get(url, ...)`; a raised
`RequestException` is caught and returned as the result (the `not res.ok`
branch only logs a warning and keeps the response). -/
def load_url (g : SessFun) (url : String) : LoadResult :=
  match g url with
  | .ok r => .response r
  | .error e => .exception e

/-- The body of the filter loop in `Webscraper._load_urls`: an entry of
`zip(responses, urls)` survives when it is not a `RequestException` and
`res.ok` holds; a surviving entry contributes `(res, urls[i])`. -/
def keepEntry : LoadResult × String → Option (Response × String)
  | (.exception _, _) => none
  | (.response r, u) => if r.ok then some (r, u) else none

/-- `Webscraper._load_urls`: map `_load_url` over the URLs (the thread-pool
`executor.map` returns results in input order), then filter out errors and
non-ok responses, collecting the surviving responses `_res` and their URLs
`_urls` pairwise.  Returns `(_res, _urls)`; the caller stores `_urls` into
`self._url` (the source does this inside `_load_urls`). -/
def load_urls (g : SessFun) (urls : List String) : List Response × List String :=
  let responses := urls.map (load_url g)
  let kept := (responses.zip urls).filterMap keepEntry
  (kept.map Prod.fst, kept.map Prod.snd)

/-- The `AssertionError` message of `get` for an argument of invalid type. -/
def invalidTypeMsg (typeName : String) : String :=
  "Parameter url is neither of type str nor list, it is of type " ++ typeName ++ "."

/-- The `AssertionError` message of `parse` when no GET has been made. -/
def parseUsageMsg : String :=
  "Expected get to be called before calling parse."

/-- The `AttributeError` message when `_parse_response` accesses `.content`
on a value that is not a `Response`. -/
def contentAttrMsg : String :=
  "object has no attribute content"

/-- `Webscraper.get`: store the raw argument into `_url`; for a `str`,
strip it and load it synchronously; for a `list`, strip every element and
load them via `_load_urls` (which also overwrites `_url` with the surviving
URLs); otherwise raise `AssertionError`.  On the non-raising paths, store
the result into `_res` and set the GET flag.  Returns the state after the
call together with the exception raised, if any. -/
def get (w : Session) (arg : UrlArg) (st : ScraperState) :
    ScraperState × Option PyError :=
  match arg with
  | .str s =>
      let s := s.trim
      let r := load_url w.get s
      let res := match r with
        | .response x => ResVal.respV x
        | .exception e => ResVal.exnV e
      ({ st with url := some (.str s), res := res
                 http := { st.http with GET := true } }, none)
  | .strList l =>
      let l := l.map String.trim
      let pair := load_urls w.get l
      ({ st with url := some (.strList pair.2), res := .listV pair.1
                 http := { st.http with GET := true } }, none)
  | .invalid t =>
      ({ st with url := some (.invalid t) },
       some (.assertionError (invalidTypeMsg t)))

/-- `Webscraper.put`: store the URL, perform `sess.put(url)` (any raised
`RequestException` is not caught and propagates, leaving `_res` and the
flags untouched), store the response and set the PUT flag. -/
def put (w : Session) (u : String) (st : ScraperState) :
    ScraperState × Option PyError :=
  match w.put u with
  | .ok r =>
      ({ st with url := some (.str u), res := .respV r
                 http := { st.http with PUT := true } }, none)
  | .error e =>
      ({ st with url := some (.str u) }, some (.requestException e))

/-- `Webscraper.delete`: as `put`, with the DELETE verb and flag. -/
def delete (w : Session) (u : String) (st : ScraperState) :
    ScraperState × Option PyError :=
  match w.delete u with
  | .ok r =>
      ({ st with url := some (.str u), res := .respV r
                 http := { st.http with DELETE := true } }, none)
  | .error e =>
      ({ st with url := some (.str u) }, some (.requestException e))

/-- `Webscraper.head`: as `put`, with the HEAD verb; the assignment
`self._http_request["HEAD"] = True` adds the HEAD key to the dictionary. -/
def head (w : Session) (u : String) (st : ScraperState) :
    ScraperState × Option PyError :=
  match w.head u with
  | .ok r =>
      ({ st with url := some (.str u), res := .respV r
                 http := { st.http with HEAD := true } }, none)
  | .error e =>
      ({ st with url := some (.str u) }, some (.requestException e))

/-- `Webscraper.options`: as `put`, with the OPTIONS verb and flag. -/
def options (w : Session) (u : String) (st : ScraperState) :
    ScraperState × Option PyError :=
  match w.options u with
  | .ok r =>
      ({ st with url := some (.str u), res := .respV r
                 http := { st.http with OPTIONS := true } }, none)
  | .error e =>
      ({ st with url := some (.str u) }, some (.requestException e))

/-- `Webscraper.post`: as `put`, with the POST verb, flag and payload. -/
def post (w : Session) (u : String) (payload : List (String × String))
    (st : ScraperState) : ScraperState × Option PyError :=
  match w.post u payload with
  | .ok r =>
      ({ st with url := some (.str u), res := .respV r
                 http := { st.http with POST := true } }, none)
  | .error e =>
      ({ st with url := some (.str u) }, some (.requestException e))

/-- `Webscraper.patch`: as `put`, with the PATCH verb and flag. -/
def patch (w : Session) (u : String) (st : ScraperState) :
    ScraperState × Option PyError :=
  match w.patch u with
  | .ok r =>
      ({ st with url := some (.str u), res := .respV r
                 http := { st.http with PATCH := true } }, none)
  | .error e =>
      ({ st with url := some (.str u) }, some (.requestException e))

/-- `Webscraper._parse_response`: `BeautifulSoup(res.content, self._parser,
from_encoding=res.encoding)`. -/
def parse_response (parserName : String) (r : Response) : SoupDoc :=
  { content := r.content, features := parserName, fromEncoding := r.encoding }

/-- `Webscraper.parse`: raise `AssertionError` unless the GET flag is set;
then, if `_res` is a list, parse each element (over `tqdm`, an identity
wrapper), else call `_parse_response(self._res)` — which raises
`AttributeError` when `_res` is a stored exception or `None`, since only a
`Response` has `.content`.  On success the result is stored into `_data`. -/
def parse (parserName : String) (st : ScraperState) :
    ScraperState × Option PyError :=
  if st.http.GET = false then
    (st, some (.assertionError parseUsageMsg))
  else
    match st.res with
    | .listV rs =>
        ({ st with data := .listD (rs.map (parse_response parserName)) }, none)
    | .respV r =>
        ({ st with data := .soupD (parse_response parserName r) }, none)
    | .exnV _ => (st, some (.attributeError contentAttrMsg))
    | .noneV => (st, some (.attributeError contentAttrMsg))

/-- A call to one of the public methods of the wrapper, used to reason
about sequences of operations. -/
inductive Op where
  | get (arg : UrlArg)
  | put (u : String)
  | delete (u : String)
  | head (u : String)
  | options (u : String)
  | post (u : String) (payload : List (String × String))
  | patch (u : String)
  | parse
deriving DecidableEq, Repr

/-- Execute one operation: the state after the call and the exception it
raised, if any. -/
def step (w : Session) (parserName : String) :
    Op → ScraperState → ScraperState × Option PyError
  | .get arg, st => get w arg st
  | .put u, st => put w u st
  | .delete u, st => delete w u st
  | .head u, st => head w u st
  | .options u, st => options w u st
  | .post u payload, st => post w u payload st
  | .patch u, st => patch w u st
  | .parse, st => parse parserName st

/-- Execute a sequence of operations, threading the state (a caller that
catches any exception and continues). -/
def run (w : Session) (parserName : String) (ops : List Op)
    (st : ScraperState) : ScraperState :=
  ops.foldl (fun s op => (step w parserName op s).1) st

/-- Whether an operation is a call to `get`. -/
def isGetOp : Op → Bool
  | .get _ => true
  | _ => false

/-- Whether a URL survives the batch filter: `_load_url` returned a
response (no transport error) and the response is ok. -/
def survives (g : SessFun) (u : String) : Bool :=
  match load_url g u with
  | .response r => r.ok
  | .exception _ => false

/-- The surviving `(response, url)` pair contributed by one URL of a batch,
if it survives the filter. -/
def keep (g : SessFun) (u : String) : Option (Response × String) :=
  keepEntry (load_url g u, u)

/-- The surviving response contributed by one URL of a batch, if any. -/
def respOf (g : SessFun) (u : String) : Option Response :=
  match load_url g u with
  | .response r => if r.ok then some r else none
  | .exception _ => none

/-- Whether a raised exception is the usage error (`AssertionError`). -/
def usageErrorRaised : Option PyError → Bool
  | some (.assertionError _) => true
  | _ => false

/-- Pointwise implication on the verb flags: every flag set in `a` is still
set in `b`. -/
def flagsLe (a b : HttpRequest) : Prop :=
  (a.DELETE = true → b.DELETE = true) ∧
  (a.GET = true → b.GET = true) ∧
  (a.PATCH = true → b.PATCH = true) ∧
  (a.POST = true → b.POST = true) ∧
  (a.PUT = true → b.PUT = true) ∧
  (a.OPTIONS = true → b.OPTIONS = true) ∧
  (a.HEAD = true → b.HEAD = true)

/-- The flag that an operation sets on its non-raising path, if any. -/
def opFlag : Op → Option (HttpRequest → Bool)
  | .get _ => some (fun h => h.GET)
  | .put _ => some (fun h => h.PUT)
  | .delete _ => some (fun h => h.DELETE)
  | .head _ => some (fun h => h.HEAD)
  | .options _ => some (fun h => h.OPTIONS)
  | .post _ _ => some (fun h => h.POST)
  | .patch _ => some (fun h => h.PATCH)
  | .parse => none

/-- A response with a successful status, used in concrete runs. -/
def okResp : Response :=
  { ok := true, content := "<html></html>", encoding := "utf-8" }

/-- A transport oracle on which every request raises a transport-level
error (an unreachable host). -/
def wErr : Session :=
  { get := fun _ => .error { msg := "connection refused" }
    put := fun _ => .error { msg := "connection refused" }
    delete := fun _ => .error { msg := "connection refused" }
    head := fun _ => .error { msg := "connection refused" }
    options := fun _ => .error { msg := "connection refused" }
    post := fun _ _ => .error { msg := "connection refused" }
    patch := fun _ => .error { msg := "connection refused" } }

/-- A transport oracle on which every request succeeds with `okResp`. -/
def wOk : Session :=
  { get := fun _ => .ok okResp
    put := fun _ => .ok okResp
    delete := fun _ => .ok okResp
    head := fun _ => .ok okResp
    options := fun _ => .ok okResp
    post := fun _ _ => .ok okResp
    patch := fun _ => .ok okResp }

/-! ### Helper lemmas -/

/-- Zipping a mapped list with the original pairs each element with its
image, so the filter loop over `zip(responses, urls)` is a `filterMap`
over the URL list itself. -/
theorem filterMap_zip_map {α β γ : Type} (f : α → β) (h : β × α → Option γ) :
    ∀ l : List α, ((l.map f).zip l).filterMap h = l.filterMap (fun a => h (f a, a))
  | [] => rfl
  | a :: as => by
      simp only [List.map_cons, List.zip_cons_cons, List.filterMap_cons]
      rw [filterMap_zip_map f h as]

/-- `_load_urls` in terms of the per-URL filter `keep`. -/
theorem load_urls_eq (g : SessFun) (urls : List String) :
    load_urls g urls =
      ((urls.filterMap (keep g)).map Prod.fst,
       (urls.filterMap (keep g)).map Prod.snd) := by
  show ((((urls.map (load_url g)).zip urls).filterMap keepEntry).map Prod.fst,
        (((urls.map (load_url g)).zip urls).filterMap keepEntry).map Prod.snd) = _
  rw [filterMap_zip_map (load_url g) keepEntry urls]
  rfl

/-- `get` on a list argument, written out: `_url` becomes the surviving
URLs, `_res` the surviving responses, the GET flag is set, and nothing is
raised. -/
theorem get_strList_eq (w : Session) (l : List String) (st : ScraperState) :
    get w (.strList l) st =
      ({ st with
           url := some (.strList (((l.map String.trim).filterMap (keep w.get)).map Prod.snd))
           res := .listV (((l.map String.trim).filterMap (keep w.get)).map Prod.fst)
           http := { st.http with GET := true } }, none) := by
  show ({ st with
            url := some (.strList (load_urls w.get (l.map String.trim)).2)
            res := .listV (load_urls w.get (l.map String.trim)).1
            http := { st.http with GET := true } }, (none : Option PyError)) = _
  rw [load_urls_eq]

/-- The URLs kept by the batch filter are the input URLs that survive, in
input order. -/
theorem filterMap_keep_snd (g : SessFun) :
    ∀ ls : List String,
      (ls.filterMap (keep g)).map Prod.snd = ls.filter (fun u => survives g u)
  | [] => rfl
  | a :: as => by
      simp only [List.filterMap_cons, List.filter_cons]
      have ih := filterMap_keep_snd g as
      unfold keep keepEntry survives
      cases hload : load_url g a with
      | exception e => simpa using ih
      | response r =>
          cases hr : r.ok with
          | true => simpa [hr] using ih
          | false => simpa [hr] using ih

/-- The responses kept by the batch filter are the surviving responses of
the input URLs, in input order. -/
theorem filterMap_keep_fst (g : SessFun) :
    ∀ ls : List String,
      (ls.filterMap (keep g)).map Prod.fst = ls.filterMap (respOf g)
  | [] => rfl
  | a :: as => by
      simp only [List.filterMap_cons]
      have ih := filterMap_keep_fst g as
      unfold keep keepEntry respOf
      cases hload : load_url g a with
      | exception e => simpa using ih
      | response r =>
          cases hr : r.ok with
          | true => simpa [hr] using ih
          | false => simpa [hr] using ih

/-- Every kept pair consists of a response actually produced for its URL
(no transport error) whose status is ok. -/
theorem keep_mem (g : SessFun) (ls : List String) :
    ∀ p ∈ ls.filterMap (keep g),
      load_url g p.2 = .response p.1 ∧ p.1.ok = true := by
  intro p hp
  obtain ⟨u, _, hk⟩ := List.mem_filterMap.mp hp
  rw [keep] at hk
  cases hload : load_url g u with
  | exception e =>
      rw [hload] at hk
      simp [keepEntry] at hk
  | response r =>
      rw [hload] at hk
      by_cases hr : r.ok = true
      · simp only [keepEntry, hr, if_true, Option.some.injEq] at hk
        subst hk
        exact ⟨hload, hr⟩
      · simp [keepEntry, hr] at hk

/-- If no URL survives, the batch filter keeps nothing. -/
theorem filterMap_keep_nil (g : SessFun) :
    ∀ ls : List String, (∀ u ∈ ls, survives g u = false) →
      ls.filterMap (keep g) = []
  | [], _ => rfl
  | a :: as, h => by
      have ha := h a (List.mem_cons_self a as)
      have ih := filterMap_keep_nil g as (fun u hu => h u (List.mem_cons_of_mem a hu))
      have hka : keep g a = none := by
        rw [keep]
        unfold survives at ha
        cases hload : load_url g a with
        | exception e => simp [keepEntry]
        | response r =>
            rw [hload] at ha
            change r.ok = false at ha
            simp [keepEntry, ha]
      simp only [List.filterMap_cons, hka, ih]

/-- `get` on a single `str` argument whose request succeeds. -/
theorem get_str_eq_ok (w : Session) (s : String) (st : ScraperState)
    (r : Response) (h : w.get s.trim = .ok r) :
    get w (.str s) st =
      ({ st with url := some (.str s.trim), res := .respV r
                 http := { st.http with GET := true } }, none) := by
  simp [get, load_url, h]

/-- `get` on a single `str` argument whose request raises a transport
error: the exception is caught and stored into `_res`. -/
theorem get_str_eq_err (w : Session) (s : String) (st : ScraperState)
    (e : RequestException) (h : w.get s.trim = .error e) :
    get w (.str s) st =
      ({ st with url := some (.str s.trim), res := .exnV e
                 http := { st.http with GET := true } }, none) := by
  simp [get, load_url, h]

/-- No operation other than `get` changes the GET flag. -/
theorem step_GET_of_not_get (w : Session) (parserName : String) (op : Op)
    (st : ScraperState) (h : isGetOp op = false) :
    (step w parserName op st).1.http.GET = st.http.GET := by
  cases op with
  | get arg => simp [isGetOp] at h
  | put u => show (put w u st).1.http.GET = _; rw [put]; cases w.put u <;> rfl
  | delete u => show (delete w u st).1.http.GET = _; rw [delete]; cases w.delete u <;> rfl
  | head u => show (head w u st).1.http.GET = _; rw [head]; cases w.head u <;> rfl
  | options u => show (options w u st).1.http.GET = _; rw [options]; cases w.options u <;> rfl
  | post u payload => show (post w u payload st).1.http.GET = _; rw [post]; cases w.post u payload <;> rfl
  | patch u => show (patch w u st).1.http.GET = _; rw [patch]; cases w.patch u <;> rfl
  | parse =>
      show (parse parserName st).1.http.GET = _
      rw [parse]
      by_cases hg : st.http.GET = false
      · simp [hg]
      · simp only [if_neg hg]
        cases st.res <;> rfl

/-- Running a sequence containing no `get` call leaves the GET flag
unset. -/
theorem run_GET_false (w : Session) (parserName : String) :
    ∀ ops : List Op, (∀ op ∈ ops, isGetOp op = false) →
      ∀ st : ScraperState, st.http.GET = false →
        (run w parserName ops st).http.GET = false
  | [], _, _, hst => hst
  | op :: ops, h, st, hst => by
      have h1 := step_GET_of_not_get w parserName op st (h op (List.mem_cons_self op ops))
      show (run w parserName ops (step w parserName op st).1).http.GET = false
      exact run_GET_false w parserName ops
        (fun o ho => h o (List.mem_cons_of_mem op ho)) _ (h1.trans hst)

/-! ### Claim theorems -/

/-- C1: for every list of URLs passed to `get`, the stored batch result
contains exactly the responses that neither raised a transport-level error
nor had a non-success status (`_res` is the kept responses), `_url` becomes
exactly the URLs of those surviving responses, both lists are maps of the
same kept list (hence of equal length and in pairwise correspondence), and
every kept pair is a URL together with the very response it produced, with
a success status. -/
theorem C1_batch_filter_pairwise (w : Session) (l : List String) (st : ScraperState) :
    (get w (.strList l) st).2 = none ∧
    (get w (.strList l) st).1.res =
      .listV (((l.map String.trim).filterMap (keep w.get)).map Prod.fst) ∧
    (get w (.strList l) st).1.url =
      some (.strList (((l.map String.trim).filterMap (keep w.get)).map Prod.snd)) ∧
    (((l.map String.trim).filterMap (keep w.get)).map Prod.snd).length =
      (((l.map String.trim).filterMap (keep w.get)).map Prod.fst).length ∧
    ∀ p ∈ (l.map String.trim).filterMap (keep w.get),
      load_url w.get p.2 = .response p.1 ∧ p.1.ok = true := by
  refine ⟨?_, ?_, ?_, ?_, keep_mem w.get _⟩
  · rw [get_strList_eq]
  · rw [get_strList_eq]
  · rw [get_strList_eq]
  · simp

/-- Witness for C1 at a concrete session and URL list. -/
theorem C1_witness :
    ((okResp, String.trim "a") ∈ (["a"].map String.trim).filterMap (keep wOk.get)) ∧
    (load_url wOk.get (okResp, String.trim "a").2 =
        .response (okResp, String.trim "a").1 ∧
      (okResp, String.trim "a").1.ok = true) :=
  ⟨List.Mem.head _,
   (C1_batch_filter_pairwise wOk ["a"] initState).2.2.2.2
     (okResp, String.trim "a") (List.Mem.head _)⟩

/-- C4: a single-URL GET whose request raises a transport-level error does
not itself raise; the exception is stored as `_res` (so the caller can
inspect its type). -/
theorem C4_single_get_stores_error (w : Session) (s : String)
    (e : RequestException) (st : ScraperState) (h : w.get s.trim = .error e) :
    (get w (.str s) st).2 = none ∧
    (get w (.str s) st).1.res = .exnV e := by
  rw [get_str_eq_err w s st e h]
  exact ⟨rfl, rfl⟩

/-- Witness for C4 on the always-failing session. -/
theorem C4_witness :
    (wErr.get (String.trim "http://x") =
      .error { msg := "connection refused" }) ∧
    ((get wErr (.str "http://x") initState).2 = none ∧
     (get wErr (.str "http://x") initState).1.res =
       .exnV { msg := "connection refused" }) :=
  ⟨rfl, C4_single_get_stores_error wErr "http://x"
    { msg := "connection refused" } initState rfl⟩

/-- C5: `get` on an argument that is neither a `str` nor a `list` raises
the usage error, and does so before issuing any request: the outcome does
not depend on the transport oracle at all. -/
theorem C5_invalid_type_raises_immediately (t : String) (st : ScraperState)
    (w w' : Session) :
    (get w (.invalid t) st).2 = some (.assertionError (invalidTypeMsg t)) ∧
    get w (.invalid t) st = get w' (.invalid t) st :=
  ⟨rfl, rfl⟩

/-- C6: the surviving responses of a batch GET are stored in the original
order of their URLs: `_res` is a `filterMap` over the (stripped) input
list, `_url` is a `filter` of it, and the stored URL list is a sublist of
the stripped input list (order preserved). -/
theorem C6_batch_order (w : Session) (l : List String) (st : ScraperState) :
    (get w (.strList l) st).1.res =
      .listV ((l.map String.trim).filterMap (respOf w.get)) ∧
    (get w (.strList l) st).1.url =
      some (.strList ((l.map String.trim).filter (fun u => survives w.get u))) ∧
    List.Sublist ((l.map String.trim).filter (fun u => survives w.get u))
      (l.map String.trim) := by
  refine ⟨?_, ?_, List.filter_sublist _⟩
  · rw [get_strList_eq, filterMap_keep_fst]
  · rw [get_strList_eq, filterMap_keep_snd]

/-- C7: `get` strips whitespace: for a single string the stripped URL is
both requested (`_res` is the outcome of loading `s.trim`) and stored in
`_url`; for a list every element is stripped before being requested, and
the stored URLs are (surviving) stripped elements. -/
theorem C7_strips_whitespace (w : Session) (s : String) (l : List String)
    (st : ScraperState) :
    (get w (.str s) st).1.url = some (.str s.trim) ∧
    (get w (.str s) st).1.res =
      (match load_url w.get s.trim with
       | .response r => ResVal.respV r
       | .exception e => ResVal.exnV e) ∧
    (get w (.strList l) st).1.res =
      .listV ((l.map String.trim).filterMap (respOf w.get)) ∧
    (get w (.strList l) st).1.url =
      some (.strList ((l.map String.trim).filter (fun u => survives w.get u))) := by
  refine ⟨rfl, rfl, ?_, ?_⟩
  · rw [get_strList_eq, filterMap_keep_fst]
  · rw [get_strList_eq, filterMap_keep_snd]

/-- C9: `get` on an invalid-typed argument leaves `_res`, `_data` and the
verb flags unchanged, but has already overwritten `_url` with the invalid
argument when the usage error is raised. -/
theorem C9_invalid_type_overwrites_url (t : String) (st : ScraperState)
    (w : Session) :
    (get w (.invalid t) st).1.res = st.res ∧
    (get w (.invalid t) st).1.data = st.data ∧
    (get w (.invalid t) st).1.http = st.http ∧
    (get w (.invalid t) st).1.url = some (.invalid t) ∧
    (get w (.invalid t) st).2 = some (.assertionError (invalidTypeMsg t)) :=
  ⟨rfl, rfl, rfl, rfl, rfl⟩

/-- C2 counterexample: after a single GET that failed with a transport
error (no GET has succeeded — `_res` holds the exception), the next `parse`
does not raise the usage error: the GET flag was set by the failed call, so
`parse` proceeds and raises an `AttributeError` from `_parse_response`
instead. -/
theorem C2_counterexample :
    (get wErr (.str "http://bad") initState).2 = none ∧
    (get wErr (.str "http://bad") initState).1.res =
      .exnV { msg := "connection refused" } ∧
    usageErrorRaised
      (parse "lxml" (get wErr (.str "http://bad") initState).1).2 = false ∧
    (parse "lxml" (get wErr (.str "http://bad") initState).1).2 =
      some (.attributeError contentAttrMsg) :=
  ⟨rfl, rfl, rfl, rfl⟩

/-- C2 amended: `parse` raises the usage error (and leaves `_data`
unchanged) exactly when no `get` call has completed, successfully or not —
after any operation sequence containing no `get` (including the empty
one), and more generally in every state whose GET flag is unset.  A `get`
whose request failed with a transport error still counts as made. -/
theorem C2_amended_usage_error_iff_no_get_call (parserName : String)
    (w : Session) (ops : List Op) (st' : ScraperState)
    (hops : ∀ op ∈ ops, isGetOp op = false)
    (hst : st'.http.GET = false) :
    (parse parserName (run w parserName ops initState)).2 =
      some (.assertionError parseUsageMsg) ∧
    (parse parserName (run w parserName ops initState)).1.data =
      (run w parserName ops initState).data ∧
    (parse parserName st').2 = some (.assertionError parseUsageMsg) ∧
    (parse parserName st').1.data = st'.data := by
  have hflag : (run w parserName ops initState).http.GET = false :=
    run_GET_false w parserName ops hops initState rfl
  have hgen : ∀ s : ScraperState, s.http.GET = false →
      (parse parserName s).2 = some (.assertionError parseUsageMsg) ∧
      (parse parserName s).1.data = s.data := by
    intro s hs
    rw [parse, if_pos hs]
    exact ⟨rfl, rfl⟩
  exact ⟨(hgen _ hflag).1, (hgen _ hflag).2, (hgen st' hst).1, (hgen st' hst).2⟩

/-- Witness for the amended C2 on the one-element sequence `[put]`. -/
theorem C2_witness :
    (∀ op ∈ [Op.put "u"], isGetOp op = false) ∧
    initState.http.GET = false ∧
    ((parse "lxml" (run wOk "lxml" [Op.put "u"] initState)).2 =
       some (.assertionError parseUsageMsg) ∧
     (parse "lxml" (run wOk "lxml" [Op.put "u"] initState)).1.data =
       (run wOk "lxml" [Op.put "u"] initState).data ∧
     (parse "lxml" initState).2 = some (.assertionError parseUsageMsg) ∧
     (parse "lxml" initState).1.data = initState.data) := by
  have hops : ∀ op ∈ [Op.put "u"], isGetOp op = false := by
    intro op hop
    cases hop with
    | head => rfl
    | tail _ h => exact absurd h (List.not_mem_nil op)
  exact ⟨hops, rfl,
    C2_amended_usage_error_iff_no_get_call "lxml" wOk [Op.put "u"] initState hops rfl⟩

/-- C3 counterexample: after `get` followed by `put` (both completing),
the GET flag is still true alongside the PUT flag — invoking a new verb
does not clear the previous verb's flag, so it is not the case that
exactly the flag of the most recently invoked verb is true. -/
theorem C3_counterexample :
    (run wOk "lxml" [Op.get (.str "a"), Op.put "b"] initState).http.PUT = true ∧
    (run wOk "lxml" [Op.get (.str "a"), Op.put "b"] initState).http.GET = true :=
  ⟨rfl, rfl⟩

/-- C3 amended: the verb flags record which verbs have been invoked so
far, not only the most recent one: every operation leaves all previously
set flags set (flags are never cleared), and an operation that completes
without raising sets the flag of its verb. -/
theorem C3_amended_flags_monotone (w : Session) (parserName : String)
    (op : Op) (st : ScraperState) :
    flagsLe st.http (step w parserName op st).1.http ∧
    ((step w parserName op st).2 = none →
      ∀ f, opFlag op = some f → f (step w parserName op st).1.http = true) := by
  cases op with
  | get arg =>
      cases arg with
      | str s =>
          refine ⟨⟨id, fun _ => rfl, id, id, id, id, id⟩, ?_⟩
          intro _ f hf
          cases hf
          rfl
      | strList l =>
          refine ⟨⟨id, fun _ => rfl, id, id, id, id, id⟩, ?_⟩
          intro _ f hf
          cases hf
          rfl
      | invalid t =>
          refine ⟨⟨id, id, id, id, id, id, id⟩, ?_⟩
          intro h2
          exact absurd h2 (by simp [step, get])
  | put u =>
      show flagsLe st.http (put w u st).1.http ∧
        ((put w u st).2 = none → ∀ f, opFlag (Op.put u) = some f →
          f (put w u st).1.http = true)
      rw [put]
      cases hc : w.put u with
      | ok r =>
          refine ⟨⟨id, id, id, id, fun _ => rfl, id, id⟩, ?_⟩
          intro _ f hf
          cases hf
          rfl
      | error e =>
          refine ⟨⟨id, id, id, id, id, id, id⟩, ?_⟩
          intro h2
          exact absurd h2 (by simp)
  | delete u =>
      show flagsLe st.http (delete w u st).1.http ∧
        ((delete w u st).2 = none → ∀ f, opFlag (Op.delete u) = some f →
          f (delete w u st).1.http = true)
      rw [delete]
      cases hc : w.delete u with
      | ok r =>
          refine ⟨⟨fun _ => rfl, id, id, id, id, id, id⟩, ?_⟩
          intro _ f hf
          cases hf
          rfl
      | error e =>
          refine ⟨⟨id, id, id, id, id, id, id⟩, ?_⟩
          intro h2
          exact absurd h2 (by simp)
  | head u =>
      show flagsLe st.http (head w u st).1.http ∧
        ((head w u st).2 = none → ∀ f, opFlag (Op.head u) = some f →
          f (head w u st).1.http = true)
      rw [head]
      cases hc : w.head u with
      | ok r =>
          refine ⟨⟨id, id, id, id, id, id, fun _ => rfl⟩, ?_⟩
          intro _ f hf
          cases hf
          rfl
      | error e =>
          refine ⟨⟨id, id, id, id, id, id, id⟩, ?_⟩
          intro h2
          exact absurd h2 (by simp)
  | options u =>
      show flagsLe st.http (options w u st).1.http ∧
        ((options w u st).2 = none → ∀ f, opFlag (Op.options u) = some f →
          f (options w u st).1.http = true)
      rw [options]
      cases hc : w.options u with
      | ok r =>
          refine ⟨⟨id, id, id, id, id, fun _ => rfl, id⟩, ?_⟩
          intro _ f hf
          cases hf
          rfl
      | error e =>
          refine ⟨⟨id, id, id, id, id, id, id⟩, ?_⟩
          intro h2
          exact absurd h2 (by simp)
  | post u payload =>
      show flagsLe st.http (post w u payload st).1.http ∧
        ((post w u payload st).2 = none → ∀ f, opFlag (Op.post u payload) = some f →
          f (post w u payload st).1.http = true)
      rw [post]
      cases hc : w.post u payload with
      | ok r =>
          refine ⟨⟨id, id, id, fun _ => rfl, id, id, id⟩, ?_⟩
          intro _ f hf
          cases hf
          rfl
      | error e =>
          refine ⟨⟨id, id, id, id, id, id, id⟩, ?_⟩
          intro h2
          exact absurd h2 (by simp)
  | patch u =>
      show flagsLe st.http (patch w u st).1.http ∧
        ((patch w u st).2 = none → ∀ f, opFlag (Op.patch u) = some f →
          f (patch w u st).1.http = true)
      rw [patch]
      cases hc : w.patch u with
      | ok r =>
          refine ⟨⟨id, id, fun _ => rfl, id, id, id, id⟩, ?_⟩
          intro _ f hf
          cases hf
          rfl
      | error e =>
          refine ⟨⟨id, id, id, id, id, id, id⟩, ?_⟩
          intro h2
          exact absurd h2 (by simp)
  | parse =>
      have hhttp : (parse parserName st).1.http = st.http := by
        rw [parse]
        by_cases hg : st.http.GET = false
        · simp [hg]
        · simp only [if_neg hg]
          cases st.res <;> rfl
      constructor
      · show flagsLe st.http (parse parserName st).1.http
        rw [hhttp]
        exact ⟨id, id, id, id, id, id, id⟩
      · intro _ f hf
        exact Option.noConfusion hf

/-- Witness for the amended C3 on a completing `put`. -/
theorem C3_witness :
    flagsLe initState.http (step wOk "lxml" (Op.put "u") initState).1.http ∧
    (step wOk "lxml" (Op.put "u") initState).1.http.PUT = true :=
  ⟨(C3_amended_flags_monotone wOk "lxml" (Op.put "u") initState).1,
   (C3_amended_flags_monotone wOk "lxml" (Op.put "u") initState).2 rfl
     (fun h => h.PUT) rfl⟩

/-- C8: `parse` after a batch GET stores the list of parsed documents of
the surviving responses, in the same order; `parse` after a single-URL GET
that returned a response stores the single parsed document of the stored
response. -/
theorem C8_parse_shapes (w : Session) (parserName : String) (l : List String)
    (s : String) (r : Response) (st : ScraperState)
    (h : w.get s.trim = .ok r) :
    (parse parserName (get w (.strList l) st).1).2 = none ∧
    (parse parserName (get w (.strList l) st).1).1.data =
      .listD ((((l.map String.trim).filterMap (keep w.get)).map Prod.fst).map
        (parse_response parserName)) ∧
    (parse parserName (get w (.str s) st).1).2 = none ∧
    (parse parserName (get w (.str s) st).1).1.data =
      .soupD (parse_response parserName r) := by
  rw [get_strList_eq w l st, get_str_eq_ok w s st r h]
  exact ⟨rfl, rfl, rfl, rfl⟩

/-- Witness for C8 on the all-ok session. -/
theorem C8_witness :
    (wOk.get (String.trim "a") = Except.ok okResp) ∧
    ((parse "lxml" (get wOk (.strList ["a"]) initState).1).2 = none ∧
     (parse "lxml" (get wOk (.strList ["a"]) initState).1).1.data =
       .listD ((((["a"].map String.trim).filterMap (keep wOk.get)).map Prod.fst).map
         (parse_response "lxml")) ∧
     (parse "lxml" (get wOk (.str "a") initState).1).2 = none ∧
     (parse "lxml" (get wOk (.str "a") initState).1).1.data =
       .soupD (parse_response "lxml" okResp)) :=
  ⟨rfl, C8_parse_shapes wOk "lxml" ["a"] "a" okResp initState rfl⟩

/-- C10: a batch GET in which every URL fails stores the empty response
list and the empty URL list, still sets the GET flag, and a subsequent
`parse` raises no usage error and stores the empty list as `_data`. -/
theorem C10_all_fail_empty_batch (w : Session) (parserName : String)
    (l : List String) (st : ScraperState)
    (h : ∀ u ∈ l.map String.trim, survives w.get u = false) :
    (get w (.strList l) st).1.res = .listV [] ∧
    (get w (.strList l) st).1.url = some (.strList []) ∧
    (get w (.strList l) st).1.http.GET = true ∧
    (parse parserName (get w (.strList l) st).1).2 = none ∧
    (parse parserName (get w (.strList l) st).1).1.data = .listD [] := by
  have hnil := filterMap_keep_nil w.get (l.map String.trim) h
  rw [get_strList_eq w l st, hnil]
  exact ⟨rfl, rfl, rfl, rfl, rfl⟩

/-- Witness for C10 on the always-failing session. -/
theorem C10_witness :
    (∀ u ∈ ["a", "b"].map String.trim, survives wErr.get u = false) ∧
    ((get wErr (.strList ["a", "b"]) initState).1.res = .listV [] ∧
     (get wErr (.strList ["a", "b"]) initState).1.url = some (.strList []) ∧
     (get wErr (.strList ["a", "b"]) initState).1.http.GET = true ∧
     (parse "lxml" (get wErr (.strList ["a", "b"]) initState).1).2 = none ∧
     (parse "lxml" (get wErr (.strList ["a", "b"]) initState).1).1.data =
       .listD []) :=
  ⟨fun _ _ => rfl,
   C10_all_fail_empty_batch wErr "lxml" ["a", "b"] initState (fun _ _ => rfl)⟩

end Webscraper
